import Mathlib

/-! Shallow embedding of the g4-backend server (src/server.ts): the
credential store, token rotation, the authenticated request pipeline,
the score integrity engine and the achievement ledger.

Database effects are modelled by explicit state passing over a `DB`
record.  Every SQL query the source issues bumps a query counter
(`nqueries`), so »touches no storage« is statable as an unchanged
counter.  Write queries additionally take a boolean flag that injects a
thrown storage error; the source catches such errors and returns its
null/false sentinel, which is modelled by `Option`/`false` results. -/

/-- A row of the `players` table: the source's `Credentials` type plus the
`teammember` and `achievements` columns read by `Users.getUserInfo` and
the achievement ledger. -/
structure PlayerRow where
  uuid : String
  username : String
  hash : String
  accesstoken : String
  teammember : Int
  achievements : List String
deriving DecidableEq

/-- A row of the `scores` table: the source's `Score` type.  The generated
row uuid is omitted; no code path relevant here reads it. -/
structure ScoreRow where
  username : String
  gamemode : String
  score : Int
  deathcount : Int
  timestamp : Int
  verified : Int
deriving DecidableEq

/-- The source's `ScoreNugget` type: the submitted score payload. -/
structure ScoreNugget where
  score : Int
  deathcount : Int
deriving DecidableEq

/-- The database state: both tables plus a counter of SQL queries issued. -/
structure DB where
  players : List PlayerRow
  scores : List ScoreRow
  nqueries : Nat
deriving DecidableEq

/-- The `SELECT * FROM players WHERE uuid = $1` row lookup (first match). -/
def lookupUUID (players : List PlayerRow) (uuid : String) : Option PlayerRow :=
  players.find? (fun p => p.uuid == uuid)

/-- The `SELECT * FROM players WHERE username = $1` row lookup (first match). -/
def lookupByUsername (players : List PlayerRow) (username : String) : Option PlayerRow :=
  players.find? (fun p => p.username == username)

/-- The `SELECT * FROM scores WHERE username = $1 AND gamemode = $2` row
lookup (first match). -/
def lookupScoreRows (scores : List ScoreRow) (username mode : String) : Option ScoreRow :=
  scores.find? (fun s => s.username == username && s.gamemode == mode)

/-- `Auth.getCredentialsFromUUID`: one SELECT on `players` by uuid; a
missing row yields the null sentinel. -/
def getCredentialsFromUUID (st : DB) (uuid : String) : Option PlayerRow × DB :=
  (lookupUUID st.players uuid, { st with nqueries := st.nqueries + 1 })

/-- `Auth.verifyAccessToken`: exact string equality with the stored token. -/
def verifyAccessToken (cred : PlayerRow) (token : String) : Bool :=
  cred.accesstoken == token

/-- Effect of the `UPDATE players SET accesstoken = $2 WHERE uuid = $1` query. -/
def updateTokenRows (players : List PlayerRow) (uuid newToken : String) : List PlayerRow :=
  players.map (fun p => if p.uuid == uuid then { p with accesstoken := newToken } else p)

/-- `Auth.regenerateToken`: persists a freshly generated token (injected as
`newToken`, standing for the random `Auth.generateToken` draw) and returns
it; a failed UPDATE is caught and yields the null sentinel. -/
def regenerateToken (updateOk : Bool) (newToken : String) (st : DB) (cred : PlayerRow) :
    Option String × DB :=
  if updateOk then
    (some newToken,
      { st with players := updateTokenRows st.players cred.uuid newToken,
                nqueries := st.nqueries + 1 })
  else
    (none, { st with nqueries := st.nqueries + 1 })

/-- `Leaderboard.knownGameModes`. -/
def knownGameModes : List String :=
  ["easy", "normal", "hard",
   "hell", "hades", "denise",
   "reverse", "nox",
   "polar", "shook"]

/-- The `tacoNames` list inside `Leaderboard.isPlayerFrostTaco`. -/
def tacoNames : List String :=
  ["ForgotMyPwd", "FrostTaco", "scintiIla4evr"]

/-- `Leaderboard.isPlayerFrostTaco`. -/
def isPlayerFrostTaco (username : String) : Bool :=
  tacoNames.contains username

/-- Effect of the `UPDATE players SET achievements = $1 WHERE username = $2`
query. -/
def updateAchievementRows (players : List PlayerRow) (username : String)
    (achs : List String) : List PlayerRow :=
  players.map (fun p => if p.username == username then { p with achievements := achs } else p)

/-- `Leaderboard.awardPlayerAchievement`: SELECT the player's achievement
set; a missing row makes the JSON access throw, caught as the null
sentinel.  An already-present id returns `false` without writing;
otherwise the id is pushed (the taco special case replaces the whole set
by the empty set) and the set is persisted, a failed UPDATE being caught
as the null sentinel. -/
def awardPlayerAchievement (updateOk : Bool) (st : DB) (username achievement : String) :
    Option Bool × DB :=
  match lookupByUsername st.players username with
  | none => (none, { st with nqueries := st.nqueries + 1 })
  | some p =>
    if p.achievements.contains achievement then
      (some false, { st with nqueries := st.nqueries + 1 })
    else
      let achs := p.achievements ++ [achievement]
      let achs2 := if isPlayerFrostTaco username then [] else achs
      if updateOk then
        (some true,
          { st with players := updateAchievementRows st.players username achs2,
                    nqueries := st.nqueries + 2 })
      else
        (none, { st with nqueries := st.nqueries + 2 })

/-- `Leaderboard.getPlayerScore`: null for an unknown mode before any query;
otherwise one SELECT on `scores` plus the `Users.getUserInfo` SELECT. -/
def getPlayerScore (st : DB) (username mode : String) : Option ScoreRow × DB :=
  if !(knownGameModes.contains mode) then (none, st)
  else
    (lookupScoreRows st.scores username mode, { st with nqueries := st.nqueries + 2 })

/-- `Leaderboard.verifyScore`: the pure score-integrity check. -/
def verifyScore (current : Option ScoreRow) (next : ScoreNugget) : Bool :=
  if next.score < 0 then false
  else if next.score > 999999 then false
  else
    match current with
    | none => decide (next.score ≤ 1)
    | some cur => next.score == cur.score + 1

/-- `Leaderboard.createPlayerScore`: rejects an unknown mode and any
submitted score above 2, then INSERTs a fresh row; a failed INSERT is
caught as `false`. -/
def createPlayerScore (now : Int) (insertOk : Bool) (st : DB)
    (username mode : String) (score : ScoreNugget) : Bool × DB :=
  if !(knownGameModes.contains mode) then (false, st)
  else if score.score > 2 then (false, st)
  else if insertOk then
    (true,
      { st with
          scores := st.scores ++
            [{ username := username, gamemode := mode,
               score := score.score, deathcount := score.deathcount,
               timestamp := now, verified := 0 }],
          nqueries := st.nqueries + 1 })
  else
    (false, { st with nqueries := st.nqueries + 1 })

/-- Effect of the `UPDATE scores SET score = $2, deathcount = $3,
timestamp = $4 WHERE username = $1 AND gamemode = $5` query. -/
def updateScoreRows (scores : List ScoreRow) (username mode : String)
    (sc dc now : Int) : List ScoreRow :=
  scores.map (fun r =>
    if r.username == username && r.gamemode == mode then
      { r with score := sc, deathcount := dc, timestamp := now }
    else r)

/-- `Leaderboard.setPlayerScore`: rejects an unknown mode, fetches the
current record, runs `verifyScore`, creates the record when none exists,
otherwise UPDATEs it in place — after the taco special case overwrites the
submitted score with -10; a failed UPDATE is caught as `false`. -/
def setPlayerScore (now : Int) (insertOk updateOk : Bool) (st : DB)
    (username mode : String) (score : ScoreNugget) : Bool × DB :=
  if !(knownGameModes.contains mode) then (false, st)
  else
    let fetched := getPlayerScore st username mode
    let currentScore := fetched.1
    let st1 := fetched.2
    let allowScore := verifyScore currentScore score
    if !allowScore then (false, st1)
    else
      match currentScore with
      | none => createPlayerScore now insertOk st1 username mode score
      | some _ =>
        let score1 := if isPlayerFrostTaco username then { score with score := -10 } else score
        if updateOk then
          (true,
            { st1 with
                scores := updateScoreRows st1.scores username mode score1.score score1.deathcount now,
                nqueries := st1.nqueries + 1 })
        else
          (false, { st1 with nqueries := st1.nqueries + 1 })

/-- `Leaderboard.overridePlayerScore`: rejects an unknown mode, fetches the
current record, delegates to `createPlayerScore` when none exists, and
otherwise UPDATEs the row with the submitted values unconditionally —
`verifyScore` is never consulted; a failed UPDATE is caught as `false`. -/
def overridePlayerScore (now : Int) (insertOk updateOk : Bool) (st : DB)
    (username mode : String) (score : ScoreNugget) : Bool × DB :=
  if !(knownGameModes.contains mode) then (false, st)
  else
    let fetched := getPlayerScore st username mode
    let currentScore := fetched.1
    let st1 := fetched.2
    match currentScore with
    | none => createPlayerScore now insertOk st1 username mode score
    | some _ =>
      if updateOk then
        (true,
          { st1 with
              scores := updateScoreRows st1.scores username mode score.score score.deathcount now,
              nqueries := st1.nqueries + 1 })
      else
        (false, { st1 with nqueries := st1.nqueries + 1 })

/-- The `ORDER BY score DESC` clause of the top-scores SELECT. -/
def sortByScoreDesc (l : List ScoreRow) : List ScoreRow :=
  l.mergeSort (fun a b => decide (b.score ≤ a.score))

/-- `Leaderboard.getModeScores`: an unknown mode returns the empty list
before any query; otherwise one filtered, ordered, limited SELECT on
`scores` plus one `Users.getUserInfo` SELECT per returned row. -/
def getModeScores (now : Int) (st : DB) (mode : String) (limit : Nat)
    (showLegit : Bool) (timeframe : Option String) : List ScoreRow × DB :=
  if !(knownGameModes.contains mode) then ([], st)
  else
    let tf := timeframe.getD "all"
    let minTimestamp : Int :=
      if tf == "day" then now - 86400000
      else if tf == "week" then now - 604800000
      else 0
    let rows :=
      (sortByScoreDesc (st.scores.filter (fun s =>
        s.gamemode == mode && (showLegit || s.verified == 0) &&
          decide (minTimestamp < s.timestamp)))).take limit
    (rows, { st with nqueries := st.nqueries + 1 + rows.length })

/-- The source's `AuthRequestBody`: `Option` models presence of the `uuid`
and `accesstoken` fields (the `"uuid" in bodyData` checks). -/
structure AuthRequestBody (α : Type) where
  uuid : Option String
  accesstoken : Option String
  data : Option α

/-- The response envelope: `err` is `respondAuthRequestErr`
(`authError = true` plus the message), `ok` is `respondAuthRequest`
(`authError = false`, the possibly-null rotated token, the `successful`
flag and the possibly-null handler data). -/
inductive AuthResponse (β : Type) where
  | err (authErrorString : String)
  | ok (accesstoken : Option String) (successful : Bool) (data : Option β)
deriving DecidableEq

/-- `RequestUtil.processAuthRequest`: the authenticated request pipeline.
`handler` is the domain callback; a `none` result is the failure sentinel
(`successful = callbackData !== null`).  `empty` is the `{}` object
substituted for an absent `data` field. -/
def processAuthRequest {α β : Type} (updateOk : Bool) (newToken : String) (empty : α)
    (handler : PlayerRow → α → DB → Option β × DB)
    (body : AuthRequestBody α) (st : DB) : AuthResponse β × DB :=
  match body.uuid with
  | none => (AuthResponse.err "User UUID not provided.", st)
  | some uuid =>
    match body.accesstoken with
    | none => (AuthResponse.err "User access token not provided.", st)
    | some token =>
      let fetched := getCredentialsFromUUID st uuid
      let st1 := fetched.2
      match fetched.1 with
      | none => (AuthResponse.err "User UUID is invalid.", st1)
      | some cred =>
        if verifyAccessToken cred token then
          let rotated := regenerateToken updateOk newToken st1 cred
          let requestData := body.data.getD empty
          let processed := handler cred requestData rotated.2
          (AuthResponse.ok rotated.1 processed.1.isSome processed.1, processed.2)
        else
          (AuthResponse.err "Access token is invalid.", st1)

/-! Helper lemmas shared by the claim theorems. -/

/-- Acceptance condition of `verifyScore` when no current record exists. -/
theorem verifyScore_none_iff (sc : ScoreNugget) :
    verifyScore none sc = true ↔ (sc.score = 0 ∨ sc.score = 1) := by
  rcases sc with ⟨s, d⟩
  simp only [verifyScore]
  by_cases h1 : s < 0
  · simp only [if_pos h1]
    constructor
    · intro h; cases h
    · intro h; omega
  · by_cases h2 : s > 999999
    · simp only [if_neg h1, if_pos h2]
      constructor
      · intro h; cases h
      · intro h; omega
    · simp only [if_neg h1, if_neg h2, decide_eq_true_eq]
      omega

/-- Acceptance condition of `verifyScore` when a current record exists. -/
theorem verifyScore_some_iff (cur : ScoreRow) (sc : ScoreNugget) :
    verifyScore (some cur) sc = true ↔
      (0 ≤ sc.score ∧ sc.score ≤ 999999 ∧ sc.score = cur.score + 1) := by
  rcases sc with ⟨s, d⟩
  simp only [verifyScore]
  by_cases h1 : s < 0
  · simp only [if_pos h1]
    constructor
    · intro h; cases h
    · intro h; omega
  · by_cases h2 : s > 999999
    · simp only [if_neg h1, if_pos h2]
      constructor
      · intro h; cases h
      · intro h; omega
    · simp only [if_neg h1, if_neg h2, beq_iff_eq]
      omega

/-- A `find?` over a list that was mapped by »update the matching rows,
keep the rest«, where the update preserves the search predicate, returns
the updated version of whatever the plain `find?` returns. -/
theorem find?_map_ite {α : Type} (p : α → Bool) (f : α → α) (l : List α)
    (hp : ∀ a, p (f a) = p a) :
    (l.map (fun a => if p a then f a else a)).find? p = (l.find? p).map f := by
  induction l with
  | nil => rfl
  | cons a l ih =>
    cases h : p a with
    | false => simp [List.find?_cons, h, ih]
    | true => simp [List.find?_cons, h, hp]

/-- Appending an element satisfying the predicate to a list with no match
makes `find?` return the appended element. -/
theorem find?_append_of_none {α : Type} (p : α → Bool) (l : List α) (x : α)
    (h : l.find? p = none) (hx : p x = true) :
    (l ++ [x]).find? p = some x := by
  induction l with
  | nil => simp [List.find?_cons, hx]
  | cons a l ih =>
    rw [List.find?_cons] at h
    cases ha : p a with
    | true => simp only [ha] at h; cases h
    | false =>
      simp only [ha] at h
      simp only [List.cons_append, List.find?_cons, ha]
      exact ih h

/-- Specialisation of `find?_map_ite` to the score UPDATE query. -/
theorem lookupScoreRows_updateScoreRows (l : List ScoreRow) (u m : String)
    (sc dc now : Int) :
    lookupScoreRows (updateScoreRows l u m sc dc now) u m =
      (lookupScoreRows l u m).map
        (fun r => { r with score := sc, deathcount := dc, timestamp := now }) := by
  unfold lookupScoreRows updateScoreRows
  exact find?_map_ite (fun s => s.username == u && s.gamemode == m)
    (fun r => { r with score := sc, deathcount := dc, timestamp := now }) l
    (fun _ => rfl)

/-- Specialisation of `find?_map_ite` to the achievements UPDATE query. -/
theorem lookupByUsername_updateAchievementRows (l : List PlayerRow) (u : String)
    (achs : List String) :
    lookupByUsername (updateAchievementRows l u achs) u =
      (lookupByUsername l u).map (fun p => { p with achievements := achs }) := by
  unfold lookupByUsername updateAchievementRows
  exact find?_map_ite (fun p => p.username == u)
    (fun p => { p with achievements := achs }) l (fun _ => rfl)

/-- C3: when no current record exists for the (account, mode) pair,
`verifyScore` accepts a submission exactly when the submitted score is 0
or 1; every other submitted score value is rejected. -/
theorem verifyScore_no_current_iff (sc : ScoreNugget) :
    verifyScore none sc = true ↔ (sc.score = 0 ∨ sc.score = 1) :=
  verifyScore_none_iff sc

/-- C4: when a current record exists, `verifyScore` accepts exactly when
the submitted score lies within the hard bounds 0 ≤ score ≤ 999999 and
equals the current score plus one — so any skip, repeat or decrease is
rejected — and submitting score -1 or score 1000000 fails regardless of
the current record. -/
theorem verifyScore_existing_iff_and_bounds :
    (∀ (cur : ScoreRow) (sc : ScoreNugget),
        verifyScore (some cur) sc = true ↔
          (0 ≤ sc.score ∧ sc.score ≤ 999999 ∧ sc.score = cur.score + 1)) ∧
    (∀ (current : Option ScoreRow) (dc : Int),
        verifyScore current { score := -1, deathcount := dc } = false ∧
        verifyScore current { score := 1000000, deathcount := dc } = false) := by
  refine ⟨fun cur sc => verifyScore_some_iff cur sc, fun current dc => ⟨?_, ?_⟩⟩
  · simp [verifyScore]
  · cases current <;> simp [verifyScore]

/-- C5: every request the pipeline rejects with an auth error — missing
uuid, missing token, unknown account, or token mismatch — leaves the
stored player rows (hence every stored access token) and the score table
unchanged, performs no rotation, and never invokes the domain handler:
the outcome is one fixed error envelope for every possible handler. -/
theorem authFailure_no_rotation {α β : Type} (updateOk : Bool) (newToken : String)
    (empty : α) (body : AuthRequestBody α) (st : DB)
    (hfail :
      body.uuid = none ∨
      body.accesstoken = none ∨
      (∃ u, body.uuid = some u ∧ lookupUUID st.players u = none) ∨
      (∃ u t p, body.uuid = some u ∧ body.accesstoken = some t ∧
        lookupUUID st.players u = some p ∧ p.accesstoken ≠ t)) :
    ∃ s st2,
      (∀ handler : PlayerRow → α → DB → Option β × DB,
        processAuthRequest updateOk newToken empty handler body st =
          (AuthResponse.err s, st2)) ∧
      st2.players = st.players ∧ st2.scores = st.scores := by
  cases hu : body.uuid with
  | none =>
    refine ⟨"User UUID not provided.", st, fun handler => ?_, rfl, rfl⟩
    simp [processAuthRequest, hu]
  | some u =>
    cases ht : body.accesstoken with
    | none =>
      refine ⟨"User access token not provided.", st, fun handler => ?_, rfl, rfl⟩
      simp [processAuthRequest, hu, ht]
    | some t =>
      cases hp : lookupUUID st.players u with
      | none =>
        refine ⟨"User UUID is invalid.", { st with nqueries := st.nqueries + 1 },
          fun handler => ?_, rfl, rfl⟩
        simp [processAuthRequest, hu, ht, getCredentialsFromUUID, hp]
      | some p =>
        have hne : p.accesstoken ≠ t := by
          rcases hfail with h | h | ⟨u2, h1, h2⟩ | ⟨u2, t2, p2, h1, h2, h3, h4⟩
          · rw [hu] at h; cases h
          · rw [ht] at h; cases h
          · rw [hu] at h1
            injection h1 with e
            subst e
            rw [hp] at h2; cases h2
          · rw [hu] at h1
            injection h1 with e
            subst e
            rw [ht] at h2
            injection h2 with e2
            subst e2
            rw [hp] at h3
            injection h3 with e3
            subst e3
            exact h4
        refine ⟨"Access token is invalid.", { st with nqueries := st.nqueries + 1 },
          fun handler => ?_, rfl, rfl⟩
        have hv : verifyAccessToken p t = false := by
          simp [verifyAccessToken, hne]
        simp [processAuthRequest, hu, ht, getCredentialsFromUUID, hp, hv]

/-- C5 witness: a concrete request missing its uuid is rejected with the
stored state untouched. -/
theorem authFailure_no_rotation_witness :
    (((none : Option String) = none ∨ (some "t" : Option String) = none ∨
      (∃ u, (none : Option String) = some u ∧
        lookupUUID ([] : List PlayerRow) u = none) ∨
      (∃ u t p, (none : Option String) = some u ∧ (some "t" : Option String) = some t ∧
        lookupUUID ([] : List PlayerRow) u = some p ∧ p.accesstoken ≠ t))) ∧
    (∃ s st2,
      (∀ handler : PlayerRow → Nat → DB → Option Nat × DB,
        processAuthRequest true "fresh" 0 handler
          { uuid := none, accesstoken := some "t", data := none }
          { players := [], scores := [], nqueries := 0 } =
          (AuthResponse.err s, st2)) ∧
      st2.players = [] ∧ st2.scores = []) := by
  constructor
  · exact Or.inl rfl
  · have h := authFailure_no_rotation (α := Nat) (β := Nat) true "fresh" 0
      { uuid := none, accesstoken := some "t", data := none }
      { players := [], scores := [], nqueries := 0 } (Or.inl rfl)
    exact h

/-- C6: a request that passes all four authentication steps, with the
rotation write succeeding and the freshly drawn token distinct from the
presented one, always yields an `authError = false` envelope carrying the
freshly rotated token — for every handler, so in particular also when the
handler fails and `successful` is `false` — and that token differs from
the presented one. -/
theorem authSuccess_rotates_even_on_handler_failure {α β : Type} (newToken : String)
    (empty : α) (handler : PlayerRow → α → DB → Option β × DB)
    (body : AuthRequestBody α) (st : DB) (u t : String) (p : PlayerRow)
    (hu : body.uuid = some u) (ht : body.accesstoken = some t)
    (hp : lookupUUID st.players u = some p)
    (hmatch : p.accesstoken = t)
    (hfresh : newToken ≠ t) :
    ∃ r st2,
      handler p (body.data.getD empty)
        { st with players := updateTokenRows st.players p.uuid newToken,
                  nqueries := st.nqueries + 2 } = (r, st2) ∧
      processAuthRequest true newToken empty handler body st =
        (AuthResponse.ok (some newToken) r.isSome r, st2) ∧
      newToken ≠ t := by
  have hv : verifyAccessToken p t = true := by
    simp [verifyAccessToken, hmatch]
  refine ⟨(handler p (body.data.getD empty)
      { st with players := updateTokenRows st.players p.uuid newToken,
                nqueries := st.nqueries + 2 }).1,
    (handler p (body.data.getD empty)
      { st with players := updateTokenRows st.players p.uuid newToken,
                nqueries := st.nqueries + 2 }).2, rfl, ?_, hfresh⟩
  simp [processAuthRequest, hu, ht, getCredentialsFromUUID, hp, hv, regenerateToken]

/-- C6 witness: a concrete authenticated request whose handler fails still
receives the rotated token. -/
theorem authSuccess_rotates_witness :
    ∃ r st2,
      (fun (_ : PlayerRow) (_ : Nat) (db : DB) => ((none : Option Nat), db))
        { uuid := "u1", username := "bob", hash := "h", accesstoken := "tok1",
          teammember := 0, achievements := [] } ((none : Option Nat).getD 0)
        { players := updateTokenRows
            [{ uuid := "u1", username := "bob", hash := "h", accesstoken := "tok1",
               teammember := 0, achievements := [] }] "u1" "tok2",
          scores := [], nqueries := 2 } = (r, st2) ∧
      processAuthRequest true "tok2" 0
        (fun (_ : PlayerRow) (_ : Nat) (db : DB) => ((none : Option Nat), db))
        { uuid := some "u1", accesstoken := some "tok1", data := none }
        { players := [{ uuid := "u1", username := "bob", hash := "h",
                        accesstoken := "tok1", teammember := 0, achievements := [] }],
          scores := [], nqueries := 0 } =
        (AuthResponse.ok (some "tok2") r.isSome r, st2) ∧
      "tok2" ≠ "tok1" :=
  authSuccess_rotates_even_on_handler_failure "tok2" 0
    (fun _ _ db => (none, db))
    { uuid := some "u1", accesstoken := some "tok1", data := none }
    { players := [{ uuid := "u1", username := "bob", hash := "h",
                    accesstoken := "tok1", teammember := 0, achievements := [] }],
      scores := [], nqueries := 0 }
    "u1" "tok1"
    { uuid := "u1", username := "bob", hash := "h", accesstoken := "tok1",
      teammember := 0, achievements := [] }
    rfl rfl (by decide) rfl (by decide)

/-- The concrete player row and database used for the rotation-failure
evaluation. -/
def credBob : PlayerRow :=
  { uuid := "u-bob", username := "bob", hash := "h", accesstoken := "tok1",
    teammember := 0, achievements := [] }

/-- Single-player database for the rotation-failure evaluation. -/
def dbBob : DB := { players := [credBob], scores := [], nqueries := 0 }

/-- C1: evaluation of the pipeline at the failing input.  A fully
authenticated request whose token-rotation UPDATE fails (the rotate
returns the absent result) is nevertheless processed: the domain handler
runs (its result appears as `data`), and an `authError = false` envelope
with `successful = true` and an absent access token is produced — the
request is not treated as failed and access is granted. -/
theorem rotationFailure_still_grants_access :
    processAuthRequest false "tok2" 0
      (fun (_ : PlayerRow) (_ : Nat) (db : DB) => (some (1 : Nat), db))
      { uuid := some "u-bob", accesstoken := some "tok1", data := none } dbBob =
      (AuthResponse.ok none true (some 1), { dbBob with nqueries := 2 }) := by
  decide

/-- Database with two of the special-cased identities for the C7
counterexample. -/
def dbTaco : DB :=
  { players :=
      [{ uuid := "u1", username := "FrostTaco", hash := "h", accesstoken := "t",
         teammember := 0, achievements := ["old1"] },
       { uuid := "u2", username := "ForgotMyPwd", hash := "h", accesstoken := "t",
         teammember := 0, achievements := ["old2"] }],
    scores := [], nqueries := 0 }

/-- C7 counterexample: there is not exactly one special-cased identity —
two distinct usernames, "FrostTaco" and "ForgotMyPwd", are both
special-cased, and a successful award wipes the persisted achievement set
of each of them. -/
theorem two_wiped_identities_cex :
    ("FrostTaco" : String) ≠ "ForgotMyPwd" ∧
    ((awardPlayerAchievement true dbTaco "FrostTaco" "ach").1 = some true ∧
      ((awardPlayerAchievement true dbTaco "FrostTaco" "ach").2.players.map
        PlayerRow.achievements) = [[], ["old2"]]) ∧
    ((awardPlayerAchievement true dbTaco "ForgotMyPwd" "ach").1 = some true ∧
      ((awardPlayerAchievement true dbTaco "ForgotMyPwd" "ach").2.players.map
        PlayerRow.achievements) = [["old1"], []]) := by
  decide

/-- C7 amended: exactly the three designated identities "ForgotMyPwd",
"FrostTaco" and "scintiIla4evr" are special-cased in the achievement
ledger — every successful award for such an identity persists the empty
achievement set instead of appending the new id, while every other
account gets the id appended. -/
theorem award_wipes_taco_amended (st : DB) (u a : String) (p : PlayerRow)
    (hfind : lookupByUsername st.players u = some p)
    (hnot : p.achievements.contains a = false) :
    (isPlayerFrostTaco u = true ↔
      (u = "ForgotMyPwd" ∨ u = "FrostTaco" ∨ u = "scintiIla4evr")) ∧
    awardPlayerAchievement true st u a =
      (some true,
        { st with
            players := updateAchievementRows st.players u
              (if isPlayerFrostTaco u then [] else p.achievements ++ [a]),
            nqueries := st.nqueries + 2 }) := by
  constructor
  · simp [isPlayerFrostTaco, tacoNames]
  · have hnot2 : a ∉ p.achievements := by simpa using hnot
    simp [awardPlayerAchievement, hfind, hnot2]

/-- C7 amended witness: awarding a fresh id to "FrostTaco" persists the
empty set. -/
theorem award_wipes_taco_amended_witness :
    lookupByUsername dbTaco.players "FrostTaco" = some
      { uuid := "u1", username := "FrostTaco", hash := "h", accesstoken := "t",
        teammember := 0, achievements := ["old1"] } ∧
    (["old1"].contains "ach") = false ∧
    ((isPlayerFrostTaco "FrostTaco" = true ↔
        ("FrostTaco" = "ForgotMyPwd" ∨ "FrostTaco" = "FrostTaco" ∨
          "FrostTaco" = "scintiIla4evr")) ∧
      awardPlayerAchievement true dbTaco "FrostTaco" "ach" =
        (some true,
          { dbTaco with
              players := updateAchievementRows dbTaco.players "FrostTaco"
                (if isPlayerFrostTaco "FrostTaco" then [] else ["old1"] ++ ["ach"]),
              nqueries := dbTaco.nqueries + 2 })) :=
  ⟨by decide, by decide,
    award_wipes_taco_amended dbTaco "FrostTaco" "ach"
      { uuid := "u1", username := "FrostTaco", hash := "h", accesstoken := "t",
        teammember := 0, achievements := ["old1"] }
      (by decide) (by decide)⟩

/-- C8: for an account outside the special-cased identities, awarding an
id not yet in its set returns `true` and persists the set with the id
appended; immediately awarding the same id again returns `false` without
an error and leaves the player rows unchanged; the persisted set contains
the id exactly once.  Moreover awarding an id that is already present
always returns `false` and leaves the player rows unchanged, with only
the SELECT query issued. -/
theorem award_idempotent (st : DB) (u a : String) (p : PlayerRow)
    (htaco : isPlayerFrostTaco u = false)
    (hfind : lookupByUsername st.players u = some p)
    (hnot : p.achievements.contains a = false) :
    (∀ (st2 : DB) (p2 : PlayerRow), lookupByUsername st2.players u = some p2 →
        p2.achievements.contains a = true →
        awardPlayerAchievement true st2 u a =
          (some false, { st2 with nqueries := st2.nqueries + 1 })) ∧
    ∃ st1,
      awardPlayerAchievement true st u a = (some true, st1) ∧
      (lookupByUsername st1.players u).map PlayerRow.achievements =
        some (p.achievements ++ [a]) ∧
      (p.achievements ++ [a]).count a = 1 ∧
      (awardPlayerAchievement true st1 u a).1 = some false ∧
      (awardPlayerAchievement true st1 u a).2.players = st1.players := by
  have hnot2 : a ∉ p.achievements := by simpa using hnot
  constructor
  · intro st2 p2 hfind2 hmem
    have hmem2 : a ∈ p2.achievements := by simpa using hmem
    simp [awardPlayerAchievement, hfind2, hmem2]
  · refine ⟨{ st with
        players := updateAchievementRows st.players u (p.achievements ++ [a]),
        nqueries := st.nqueries + 2 }, ?_, ?_, ?_, ?_, ?_⟩
    · simp [awardPlayerAchievement, hfind, hnot2, htaco]
    · rw [lookupByUsername_updateAchievementRows, hfind]; rfl
    · have : p.achievements.count a = 0 := List.count_eq_zero.mpr hnot2
      simp [List.count_append, this]
    · have hfind1 : lookupByUsername
          (updateAchievementRows st.players u (p.achievements ++ [a])) u =
          some { p with achievements := p.achievements ++ [a] } := by
        rw [lookupByUsername_updateAchievementRows, hfind]; rfl
      simp [awardPlayerAchievement, hfind1]
    · have hfind1 : lookupByUsername
          (updateAchievementRows st.players u (p.achievements ++ [a])) u =
          some { p with achievements := p.achievements ++ [a] } := by
        rw [lookupByUsername_updateAchievementRows, hfind]; rfl
      simp [awardPlayerAchievement, hfind1]

/-- C8 witness: a concrete normal account awarded the same id twice. -/
theorem award_idempotent_witness :
    isPlayerFrostTaco "bob" = false ∧
    lookupByUsername
      [{ uuid := "u1", username := "bob", hash := "h", accesstoken := "t",
         teammember := 0, achievements := ["first"] }] "bob" = some
      { uuid := "u1", username := "bob", hash := "h", accesstoken := "t",
        teammember := 0, achievements := ["first"] } ∧
    (["first"].contains "ach") = false ∧
    ((∀ (st2 : DB) (p2 : PlayerRow), lookupByUsername st2.players "bob" = some p2 →
        p2.achievements.contains "ach" = true →
        awardPlayerAchievement true st2 "bob" "ach" =
          (some false, { st2 with nqueries := st2.nqueries + 1 })) ∧
      ∃ st1,
        awardPlayerAchievement true
          { players := [{ uuid := "u1", username := "bob", hash := "h",
                          accesstoken := "t", teammember := 0,
                          achievements := ["first"] }],
            scores := [], nqueries := 0 } "bob" "ach" = (some true, st1) ∧
        (lookupByUsername st1.players "bob").map PlayerRow.achievements =
          some (["first"] ++ ["ach"]) ∧
        ((["first"] ++ ["ach"]).count "ach") = 1 ∧
        (awardPlayerAchievement true st1 "bob" "ach").1 = some false ∧
        (awardPlayerAchievement true st1 "bob" "ach").2.players = st1.players) :=
  ⟨by decide, by decide, by decide,
    award_idempotent
      { players := [{ uuid := "u1", username := "bob", hash := "h",
                      accesstoken := "t", teammember := 0,
                      achievements := ["first"] }],
        scores := [], nqueries := 0 } "bob" "ach"
      { uuid := "u1", username := "bob", hash := "h", accesstoken := "t",
        teammember := 0, achievements := ["first"] }
      (by decide) (by decide) (by decide)⟩

/-- C9: for a game mode outside the known enumerated set, `setPlayerScore`
returns `false` and `getModeScores` returns the empty sequence, and both
leave the database state — including the query counter — untouched, so no
storage read or write is performed. -/
theorem unknown_mode_no_storage (mode : String)
    (hmode : knownGameModes.contains mode = false) :
    (∀ (now : Int) (insertOk updateOk : Bool) (st : DB) (username : String)
        (sc : ScoreNugget),
        setPlayerScore now insertOk updateOk st username mode sc = (false, st)) ∧
    (∀ (now : Int) (st : DB) (limit : Nat) (showLegit : Bool)
        (timeframe : Option String),
        getModeScores now st mode limit showLegit timeframe = ([], st)) := by
  have hmode2 : mode ∉ knownGameModes := by simpa using hmode
  constructor
  · intro now insertOk updateOk st username sc
    simp [setPlayerScore, hmode2]
  · intro now st limit showLegit timeframe
    simp [getModeScores, hmode2]

/-- C9 witness: the unknown mode "banana" is rejected without touching
storage. -/
theorem unknown_mode_no_storage_witness :
    knownGameModes.contains "banana" = false ∧
    ((∀ (now : Int) (insertOk updateOk : Bool) (st : DB) (username : String)
        (sc : ScoreNugget),
        setPlayerScore now insertOk updateOk st username "banana" sc = (false, st)) ∧
      (∀ (now : Int) (st : DB) (limit : Nat) (showLegit : Bool)
          (timeframe : Option String),
          getModeScores now st "banana" limit showLegit timeframe = ([], st))) :=
  ⟨by decide, unknown_mode_no_storage "banana" (by decide)⟩

/-- Database with an existing score of 5 for the C2 counterexample. -/
def dbCex : DB :=
  { players := [],
    scores := [{ username := "bob", gamemode := "easy", score := 5, deathcount := 0,
                 timestamp := 0, verified := 0 }],
    nqueries := 0 }

/-- C2 counterexample: `overridePlayerScore` is an accepted score-writing
operation of the program (it returns `true`), yet it replaces a stored
score of 5 by 3 — the stored sequence for ("bob", "easy") decreases
instead of advancing by exactly +1. -/
theorem override_decreases_accepted_cex :
    (dbCex.scores.map ScoreRow.score) = [5] ∧
    (overridePlayerScore 1 true true dbCex "bob" "easy"
      { score := 3, deathcount := 0 }).1 = true ∧
    ((overridePlayerScore 1 true true dbCex "bob" "easy"
      { score := 3, deathcount := 0 }).2.scores.map ScoreRow.score) = [3] ∧
    ¬ ((5 : Int) ≤ 3) := by
  decide

/-- Evaluation of `setPlayerScore` on the creation path. -/
theorem setPlayerScore_create_path (now : Int) (insertOk updateOk : Bool) (st : DB)
    (username mode : String) (sc : ScoreNugget)
    (hmode : mode ∈ knownGameModes)
    (hcur : lookupScoreRows st.scores username mode = none)
    (hv : verifyScore none sc = true) :
    setPlayerScore now insertOk updateOk st username mode sc =
      createPlayerScore now insertOk { st with nqueries := st.nqueries + 2 }
        username mode sc := by
  simp [setPlayerScore, getPlayerScore, hmode, hcur, hv]

/-- Evaluation of `setPlayerScore` on the update path for a non-taco
account. -/
theorem setPlayerScore_update_path (now : Int) (insertOk updateOk : Bool) (st : DB)
    (username mode : String) (sc : ScoreNugget) (cur : ScoreRow)
    (hmode : mode ∈ knownGameModes)
    (hcur : lookupScoreRows st.scores username mode = some cur)
    (hv : verifyScore (some cur) sc = true)
    (htaco : isPlayerFrostTaco username = false) :
    setPlayerScore now insertOk updateOk st username mode sc =
      if updateOk then
        (true,
          { st with
              scores := updateScoreRows st.scores username mode sc.score sc.deathcount now,
              nqueries := st.nqueries + 2 + 1 })
      else (false, { st with nqueries := st.nqueries + 2 + 1 }) := by
  cases updateOk <;> simp [setPlayerScore, getPlayerScore, hmode, hcur, hv, htaco]

/-- C2 amended: restricted to `setPlayerScore` on accounts outside the
designated taco identities, every accepted update stores either a first
value of exactly 0 or 1 (when no record existed) or exactly the previous
stored score plus one — so those stored sequences are non-decreasing and
advance by exactly +1 per accepted update.  (As stated the claim fails:
`overridePlayerScore` also accepts decreases and jumps, and the taco
identities get -10 written on accepted updates.) -/
theorem setPlayerScore_monotone_step (now : Int) (insertOk updateOk : Bool) (st : DB)
    (username mode : String) (sc : ScoreNugget)
    (htaco : isPlayerFrostTaco username = false)
    (hacc : (setPlayerScore now insertOk updateOk st username mode sc).1 = true) :
    ∃ row,
      lookupScoreRows
        (setPlayerScore now insertOk updateOk st username mode sc).2.scores
        username mode = some row ∧
      row.score = sc.score ∧
      (lookupScoreRows st.scores username mode = none →
        (sc.score = 0 ∨ sc.score = 1)) ∧
      (∀ cur, lookupScoreRows st.scores username mode = some cur →
        sc.score = cur.score + 1) := by
  by_cases hmode : mode ∈ knownGameModes
  case neg =>
    exfalso
    simp [setPlayerScore, hmode] at hacc
  case pos =>
    cases hcur : lookupScoreRows st.scores username mode with
    | none =>
      cases hv : verifyScore none sc with
      | false =>
        exfalso
        simp [setPlayerScore, getPlayerScore, hmode, hcur, hv] at hacc
      | true =>
        have heq := setPlayerScore_create_path now insertOk updateOk st
          username mode sc hmode hcur hv
        rw [heq] at hacc ⊢
        have hsc01 : sc.score = 0 ∨ sc.score = 1 := (verifyScore_none_iff sc).mp hv
        have hle : ¬ (sc.score > 2) := by omega
        cases insertOk with
        | false =>
          exfalso
          simp [createPlayerScore, hmode, hle] at hacc
        | true =>
          have hcreate : createPlayerScore now true
              { st with nqueries := st.nqueries + 2 } username mode sc =
              (true,
                { players := st.players,
                  scores := st.scores ++
                    [{ username := username, gamemode := mode, score := sc.score,
                       deathcount := sc.deathcount, timestamp := now, verified := 0 }],
                  nqueries := st.nqueries + 2 + 1 }) := by
            simp [createPlayerScore, hmode, hle]
          rw [hcreate]
          refine ⟨(⟨username, mode, sc.score, sc.deathcount, now, 0⟩ : ScoreRow),
            ?_, rfl, fun _ => hsc01,
            fun cur hcur2 => Option.noConfusion hcur2⟩
          exact find?_append_of_none _ st.scores _ hcur (by simp)
    | some cur =>
      cases hv : verifyScore (some cur) sc with
      | false =>
        exfalso
        simp [setPlayerScore, getPlayerScore, hmode, hcur, hv] at hacc
      | true =>
        have heq := setPlayerScore_update_path now insertOk updateOk st
          username mode sc cur hmode hcur hv htaco
        rw [heq] at hacc ⊢
        cases updateOk with
        | false =>
          exfalso
          simp at hacc
        | true =>
          rw [if_pos rfl] at hacc ⊢
          refine ⟨(⟨cur.username, cur.gamemode, sc.score, sc.deathcount, now,
              cur.verified⟩ : ScoreRow), ?_, rfl, ?_, ?_⟩
          · rw [lookupScoreRows_updateScoreRows, hcur]
            rfl
          · intro h
            exact Option.noConfusion h
          · intro cur2 h
            have e : cur = cur2 := Option.some.inj h
            exact e ▸ ((verifyScore_some_iff cur sc).mp hv).2.2

/-- C2 amended witness: a concrete first accepted update for a non-taco
account stores the value 1. -/
theorem setPlayerScore_monotone_step_witness :
    isPlayerFrostTaco "bob" = false ∧
    (setPlayerScore 5 true true { players := [], scores := [], nqueries := 0 }
      "bob" "easy" { score := 1, deathcount := 2 }).1 = true ∧
    ∃ row,
      lookupScoreRows
        (setPlayerScore 5 true true { players := [], scores := [], nqueries := 0 }
          "bob" "easy" { score := 1, deathcount := 2 }).2.scores
        "bob" "easy" = some row ∧
      row.score = ({ score := 1, deathcount := 2 } : ScoreNugget).score ∧
      (lookupScoreRows ([] : List ScoreRow) "bob" "easy" = none →
        (({ score := 1, deathcount := 2 } : ScoreNugget).score = 0 ∨
          ({ score := 1, deathcount := 2 } : ScoreNugget).score = 1)) ∧
      (∀ cur, lookupScoreRows ([] : List ScoreRow) "bob" "easy" = some cur →
        ({ score := 1, deathcount := 2 } : ScoreNugget).score = cur.score + 1) :=
  ⟨by decide, by decide,
    setPlayerScore_monotone_step 5 true true
      { players := [], scores := [], nqueries := 0 } "bob" "easy"
      { score := 1, deathcount := 2 } (by decide) (by decide)⟩

/-- C10: for a known mode and an existing (username, mode) record,
`overridePlayerScore` writes the submitted score and death count
unconditionally — for every submitted value, decreases and jumps
included, with `verifyScore` never consulted — and returns `true` when
the UPDATE succeeds; when no record exists it delegates to
`createPlayerScore`, which rejects any submitted score greater than 2. -/
theorem override_no_verify (now : Int) (insertOk : Bool) (st : DB)
    (username mode : String) (sc : ScoreNugget)
    (hmode : mode ∈ knownGameModes) :
    (∀ cur, lookupScoreRows st.scores username mode = some cur →
        overridePlayerScore now insertOk true st username mode sc =
          (true,
            { st with
                scores := updateScoreRows st.scores username mode sc.score sc.deathcount now,
                nqueries := st.nqueries + 2 + 1 })) ∧
    (lookupScoreRows st.scores username mode = none →
        (∀ updateOk : Bool,
          overridePlayerScore now insertOk updateOk st username mode sc =
            createPlayerScore now insertOk { st with nqueries := st.nqueries + 2 }
              username mode sc) ∧
        (sc.score > 2 →
          (overridePlayerScore now insertOk true st username mode sc).1 = false)) := by
  constructor
  · intro cur hcur
    simp [overridePlayerScore, getPlayerScore, hmode, hcur]
  · intro hcur
    have hdel : ∀ updateOk : Bool,
        overridePlayerScore now insertOk updateOk st username mode sc =
          createPlayerScore now insertOk { st with nqueries := st.nqueries + 2 }
            username mode sc := by
      intro updateOk
      simp [overridePlayerScore, getPlayerScore, hmode, hcur]
    refine ⟨hdel, fun hgt => ?_⟩
    rw [hdel true]
    simp [createPlayerScore, hmode, hgt]

/-- C10 witness: with an existing record of score 5, a submitted score of
-5 is written unchanged and the call reports success. -/
theorem override_no_verify_witness :
    ("easy" ∈ knownGameModes) ∧
    lookupScoreRows dbCex.scores "bob" "easy" = some
      { username := "bob", gamemode := "easy", score := 5, deathcount := 0,
        timestamp := 0, verified := 0 } ∧
    overridePlayerScore 7 true true dbCex "bob" "easy"
      { score := -5, deathcount := 9 } =
      (true,
        { dbCex with
            scores := updateScoreRows dbCex.scores "bob" "easy" (-5) 9 7,
            nqueries := dbCex.nqueries + 2 + 1 }) :=
  ⟨by decide, by decide,
    (override_no_verify 7 true dbCex "bob" "easy" { score := -5, deathcount := 9 }
      (by decide)).1
      { username := "bob", gamemode := "easy", score := 5, deathcount := 0,
        timestamp := 0, verified := 0 }
      (by decide)⟩
